import Mathlib

/-!
Shallow embedding of the pagination and streaming core of the swarmnode-node
client library (src/pagination.ts, src/handlers.ts, src/client.ts), together
with theorems settling the specification claims about it.

Conventions of the embedding:
* TS `string | null` and optional fields become `Option`.
* The HTTP transport (`client.get`) is an external collaborator; it is passed
  in as a function `fetch : String → RequestOptions → Response`, and every
  request issued is returned in an explicit log, so that statements about the
  number of network calls are provable.
* `JSON.parse` and WHATWG-URL query extraction are platform functions, not
  code of this repository; they are passed in as parameters (`parse`,
  `parseQuery`).  Concrete instances restricted to the strings appearing in
  the examples are defined for witnesses.
* `async` loops are embedded as fuel-indexed recursion; running out of fuel is
  a distinguished outcome, never silently conflated with termination.
-/

namespace SwarmNode

/-- Embeds `RequestOptions` from src/client.ts: all five fields are optional in TS,
so each is an `Option`; `body` and `signal` are opaque to the pagination core
and are modelled by opaque tokens. -/
structure RequestOptions where
  query : Option (List (String × String)) := none
  body : Option String := none
  headers : Option (List (String × String)) := none
  signal : Option Nat := none
  timeout : Option Nat := none
  deriving DecidableEq, Repr

/-- Embeds `PagePaginatedResponse` from src/pagination.ts.  `current_page` is typed
`number` in TS but the code guards it with `?? 1`, so it is an `Option` here. -/
structure PagePaginatedResponse (T : Type) where
  next : Option String
  previous : Option String
  results : List T
  total_count : Nat
  current_page : Option Nat
  deriving DecidableEq, Repr

/-- Embeds `CursorPaginatedResponse` from src/pagination.ts: same minus
`total_count` and `current_page`. -/
structure CursorPaginatedResponse (T : Type) where
  next : Option String
  previous : Option String
  results : List T
  deriving DecidableEq, Repr

/-- The optional `transformer` constructor argument of `Page`/`CursorPage`.
When no transformer is attached, `getItems` in the source returns
`this.response.results as unknown as R[]` — an identity reinterpretation that
is only meaningful at `R = T`; it is embedded as a cast along a type
equality. -/
inductive Transformer (T R : Type) where
  | attached (f : T → R)
  | identity (h : T = R)

/-- Apply a transformer to one raw item. -/
def Transformer.apply {T R : Type} : Transformer T R → T → R
  | .attached f, x => f x
  | .identity h, x => h ▸ x

/-- JS truthiness of the `next : string | null` field as used in
`hasNextPage` (`!!this.response.next`) and in the `getNextPage` guard
(`if (!this.response.next)`): `null` and the empty string are falsy. -/
def strTruthy : Option String → Bool
  | none => false
  | some s => s != ""

/-- The `Page` class of src/pagination.ts.  The `client` field is the
external transport; it is supplied at each call site instead of being
stored. -/
structure Page (T R : Type) where
  path : String
  response : PagePaginatedResponse T
  options : Option RequestOptions
  transformer : Transformer T R

/-- The `CursorPage` class of src/pagination.ts. -/
structure CursorPage (T R : Type) where
  path : String
  response : CursorPaginatedResponse T
  options : Option RequestOptions
  transformer : Transformer T R

/-- Embeds `Page.getItems` (src/pagination.ts lines 29-33). -/
def Page.getItems {T R : Type} (p : Page T R) : List R :=
  match p.transformer with
  | .attached f => p.response.results.map f
  | .identity h => h ▸ p.response.results

/-- Embeds `CursorPage.getItems` (src/pagination.ts lines 105-109). -/
def CursorPage.getItems {T R : Type} (p : CursorPage T R) : List R :=
  match p.transformer with
  | .attached f => p.response.results.map f
  | .identity h => h ▸ p.response.results

/-- Embeds `Page.hasNextPage` (src/pagination.ts lines 38-40). -/
def Page.hasNextPage {T R : Type} (p : Page T R) : Bool :=
  strTruthy p.response.next

/-- Embeds `CursorPage.hasNextPage` (src/pagination.ts lines 114-116). -/
def CursorPage.hasNextPage {T R : Type} (p : CursorPage T R) : Bool :=
  strTruthy p.response.next

/-- Embeds `Page.getCurrentPageNumber` (src/pagination.ts lines 45-47):
`this.response.current_page ?? 1`. -/
def Page.getCurrentPageNumber {T R : Type} (p : Page T R) : Nat :=
  p.response.current_page.getD 1

/-- The next-fetch options built by both `getNextPage` bodies
(src/pagination.ts lines 57-64 and 126-132): spread the current options
(`{...this.options}`, with `undefined` spreading to the empty object), then
overwrite `query` wholesale with the parameters parsed from the `next`
URL. -/
def nextOptionsOf (parseQuery : String → List (String × String))
    (opts : Option RequestOptions) (nextUrl : String) : RequestOptions :=
  { opts.getD {} with query := some (parseQuery nextUrl) }

/-- Embeds `Page.getNextPage` (src/pagination.ts lines 52-71).  `parseQuery` embeds
`Object.fromEntries(new URL(u).searchParams)`; `fetch` embeds
`this.client.get`.  Besides the resulting page, the list of issued transport
requests (path and options of each) is returned, so the request count is
observable. -/
def Page.getNextPage {T R : Type}
    (parseQuery : String → List (String × String))
    (fetch : String → RequestOptions → PagePaginatedResponse T)
    (p : Page T R) : Option (Page T R) × List (String × RequestOptions) :=
  match p.response.next with
  | none => (none, [])
  | some nextUrl =>
    if nextUrl = "" then (none, [])
    else
      let nextOptions := nextOptionsOf parseQuery p.options nextUrl
      let response := fetch p.path nextOptions
      (some { path := p.path, response := response, options := some nextOptions,
              transformer := p.transformer },
       [(p.path, nextOptions)])

/-- Embeds `CursorPage.getNextPage` (src/pagination.ts lines 121-140). -/
def CursorPage.getNextPage {T R : Type}
    (parseQuery : String → List (String × String))
    (fetch : String → RequestOptions → CursorPaginatedResponse T)
    (p : CursorPage T R) : Option (CursorPage T R) × List (String × RequestOptions) :=
  match p.response.next with
  | none => (none, [])
  | some nextUrl =>
    if nextUrl = "" then (none, [])
    else
      let nextOptions := nextOptionsOf parseQuery p.options nextUrl
      let response := fetch p.path nextOptions
      (some { path := p.path, response := response, options := some nextOptions,
              transformer := p.transformer },
       [(p.path, nextOptions)])

/-- The page reached after `n` chained `getNextPage` calls. -/
def Page.nthPage {T R : Type}
    (parseQuery : String → List (String × String))
    (fetch : String → RequestOptions → PagePaginatedResponse T)
    (p : Page T R) : Nat → Option (Page T R)
  | 0 => some p
  | n + 1 => (Page.nthPage parseQuery fetch p n).bind
      fun q => (q.getNextPage parseQuery fetch).1

/-- The cursor page reached after `n` chained `getNextPage` calls. -/
def CursorPage.nthPage {T R : Type}
    (parseQuery : String → List (String × String))
    (fetch : String → RequestOptions → CursorPaginatedResponse T)
    (p : CursorPage T R) : Nat → Option (CursorPage T R)
  | 0 => some p
  | n + 1 => (CursorPage.nthPage parseQuery fetch p n).bind
      fun q => (q.getNextPage parseQuery fetch).1

/-- One round of the `while (true)` loop of the `Page` async iterator
(src/pagination.ts lines 76-90), with `first` playing the role of `this` and
the `Option` argument playing the local variable `self`.  NOTE: the source
loop body is `for (const item of this.getItems())` — it yields the items of
the page the iterator was started on in every round, while only the local
variable `self` advances.  `fuel` bounds the number of rounds; `none` means
the loop was still running when the fuel ran out. -/
def Page.iterRounds {T R : Type}
    (parseQuery : String → List (String × String))
    (fetch : String → RequestOptions → PagePaginatedResponse T)
    (first : Page T R) : Nat → Option (Page T R) → Option (List R)
  | 0, _ => none
  | fuel + 1, self =>
    let ys := first.getItems
    match self with
    | none => some ys
    | some s =>
      if s.hasNextPage then
        (Page.iterRounds parseQuery fetch first fuel
            (s.getNextPage parseQuery fetch).1).map (fun rest => ys ++ rest)
      else some ys

/-- The full async traversal of `Page` (src/pagination.ts lines 76-90):
`self` starts at `this`. -/
def Page.iterAll {T R : Type}
    (parseQuery : String → List (String × String))
    (fetch : String → RequestOptions → PagePaginatedResponse T)
    (p : Page T R) (fuel : Nat) : Option (List R) :=
  Page.iterRounds parseQuery fetch p fuel (some p)

/-- One round of the `while (true)` loop of the `CursorPage` async iterator
(src/pagination.ts lines 145-159); the source loop body is likewise
`for (const item of this.getItems())` while only `currentPage` advances. -/
def CursorPage.iterRounds {T R : Type}
    (parseQuery : String → List (String × String))
    (fetch : String → RequestOptions → CursorPaginatedResponse T)
    (first : CursorPage T R) : Nat → Option (CursorPage T R) → Option (List R)
  | 0, _ => none
  | fuel + 1, self =>
    let ys := first.getItems
    match self with
    | none => some ys
    | some s =>
      if s.hasNextPage then
        (CursorPage.iterRounds parseQuery fetch first fuel
            (s.getNextPage parseQuery fetch).1).map (fun rest => ys ++ rest)
      else some ys

/-- The full async traversal of `CursorPage` (src/pagination.ts lines
145-159). -/
def CursorPage.iterAll {T R : Type}
    (parseQuery : String → List (String × String))
    (fetch : String → RequestOptions → CursorPaginatedResponse T)
    (p : CursorPage T R) (fuel : Nat) : Option (List R) :=
  CursorPage.iterRounds parseQuery fetch p fuel (some p)

/-! ## Streaming transport (src/handlers.ts, `WebSocketHandler`) -/

/-- Embeds `WebSocketError` from src/error.ts: a message plus an optional underlying
cause; `ε` is the type of causes (the wrapped platform error). -/
structure WebSocketError (ε : Type) where
  message : String
  cause : Option ε := none
  deriving DecidableEq, Repr

/-- Embeds `DEFAULT_TIMEOUT` from src/handlers.ts line 174 (10 minutes). -/
def DEFAULT_TIMEOUT : Nat := 600000

/-- Embeds `options.timeout ?? this.DEFAULT_TIMEOUT` (src/handlers.ts lines 183 and
211). -/
def resolveTimeout (o : Option Nat) : Nat :=
  o.getD DEFAULT_TIMEOUT

/-- The message of the timeout error built at src/handlers.ts lines 188 and
272. -/
def timeoutMessage (timeout : Nat) : String :=
  "WebSocket connection timed out after " ++ toString timeout ++ "ms"

/-- An event delivered by the underlying connection: an inbound text
fragment, a close, or a transport-level error. -/
inductive ConnEvent (ε : Type) where
  | msg (data : String)
  | close
  | error (e : ε)
  deriving DecidableEq, Repr

/-- Embeds `handleWebSocketClose` (src/handlers.ts lines 236-254): join all
accumulated fragments into one string; an empty buffer is a distinguished
failure; otherwise the whole buffer is parsed as one JSON document.  `parse`
embeds the platform `JSON.parse`, whose failure carries the thrown error. -/
def handleWebSocketClose {ε V : Type} (parse : String → Except ε V)
    (chunks : List String) : Except (WebSocketError ε) V :=
  let message := String.join chunks
  if message = "" then
    Except.error { message := "Connection closed without receiving any message" }
  else
    match parse message with
    | Except.ok v => Except.ok v
    | Except.error e =>
        Except.error { message := "Failed to parse WebSocket message as JSON",
                       cause := some e }

/-- Decidable equality for `Except`, needed to evaluate concrete `listen`
states. -/
instance instDecidableEqExcept {α β : Type} [DecidableEq α] [DecidableEq β] :
    DecidableEq (Except α β) := fun x y =>
  match x, y with
  | .ok a, .ok b =>
      if h : a = b then isTrue (by rw [h])
      else isFalse (by intro hc; cases hc; exact h rfl)
  | .ok _, .error _ => isFalse (by intro hc; cases hc)
  | .error _, .ok _ => isFalse (by intro hc; cases hc)
  | .error a, .error b =>
      if h : a = b then isTrue (by rw [h])
      else isFalse (by intro hc; cases hc; exact h rfl)

/-- The state of one `listen` call (src/handlers.ts lines 181-204): the
fragment buffer `chunks`, the promise settlement (`none` while pending, and a
promise keeps its first settlement), whether `clearTimeout` has run, whether
the timeout timer has fired, and whether the timeout handler forced
`ws.close()`. -/
structure ListenState (ε V : Type) where
  chunks : List String := []
  settled : Option (Except (WebSocketError ε) V) := none
  timerCleared : Bool := false
  timerFired : Bool := false
  forcedClose : Bool := false
  deriving DecidableEq, Repr

/-- Settle the `listen` promise: only the first `resolve`/`reject` takes
effect. -/
def listenSettle {ε V : Type} (s : ListenState ε V)
    (r : Except (WebSocketError ε) V) : ListenState ε V :=
  match s.settled with
  | some _ => s
  | none => { s with settled := some r }

/-- The timeout callback of `listen` (src/handlers.ts lines 187-190): reject
with the timeout error, then force the connection closed.  A cleared or
already-fired timer does nothing. -/
def listenFireTimer {ε V : Type} (timeout : Nat) (s : ListenState ε V) :
    ListenState ε V :=
  if s.timerCleared || s.timerFired then s
  else
    { listenSettle s (Except.error { message := timeoutMessage timeout }) with
        timerFired := true, forcedClose := true }

/-- The `listen` event handlers (src/handlers.ts lines 192-202): `message`
appends the fragment to the buffer; `close` clears the timer and settles with
`handleWebSocketClose`; `error` clears the timer and rejects with the
connection error. -/
def listenOnEvent {ε V : Type} (parse : String → Except ε V)
    (s : ListenState ε V) : ConnEvent ε → ListenState ε V
  | .msg d => { s with chunks := s.chunks ++ [d] }
  | .close =>
      listenSettle { s with timerCleared := true }
        (handleWebSocketClose parse s.chunks)
  | .error e =>
      listenSettle { s with timerCleared := true }
        (Except.error { message := "WebSocket connection error", cause := some e })

/-- One delivery step of `listen`: the single timer armed at call time (with
absolute deadline `timeout`) fires before any event whose timestamp has
reached the deadline, then the event handler runs. -/
def listenStep {ε V : Type} (parse : String → Except ε V) (timeout : Nat)
    (s : ListenState ε V) (te : Nat × ConnEvent ε) : ListenState ε V :=
  listenOnEvent parse (if timeout ≤ te.1 then listenFireTimer timeout s else s) te.2

/-- A whole `listen` call (src/handlers.ts lines 181-204) run against a
finite timeline of timestamped connection events; after the last event the
armed timer, unless cleared, eventually fires. -/
def listenRun {ε V : Type} (parse : String → Except ε V) (opts : Option Nat)
    (events : List (Nat × ConnEvent ε)) : ListenState ε V :=
  listenFireTimer (resolveTimeout opts)
    (events.foldl (listenStep parse (resolveTimeout opts)) {})

/-- The fragments carried by a timeline of connection events, in delivery
order. -/
def eventMsgs {ε : Type} (events : List (Nat × ConnEvent ε)) : List String :=
  events.filterMap fun p =>
    match p.2 with
    | .msg d => some d
    | _ => none

/-- Invariant of a `listen` state that has seen only `message` events: either
the promise is still pending with the timer armed, or the timer has fired —
settling the promise with the timeout error and forcing the close — and was
never cleared. -/
def ListenTimerInv {ε V : Type} (timeout : Nat) (s : ListenState ε V) : Prop :=
  (s.settled = none ∧ s.timerCleared = false ∧ s.timerFired = false)
  ∨ (s.settled = some (Except.error { message := timeoutMessage timeout })
      ∧ s.timerCleared = false ∧ s.timerFired = true ∧ s.forcedClose = true)

/-- The effect of the handlers installed by `setupStreamHandlers`
(src/handlers.ts lines 256-262) for each connection event: `message` pushes
the fragment on the shared queue, `close` sets the closed flag, and `error`
THROWS a `WebSocketError` synchronously inside the event callback — the
throw is not routed into the queue or the closed flag (the only state that
`processStreamMessages` reads), nor into the generator at all. -/
inductive StreamHandlerEffect (ε : Type) where
  | enqueue (data : String)
  | markClosed
  | raiseInCallback (err : WebSocketError ε)
  deriving DecidableEq, Repr

/-- Embeds `setupStreamHandlers` (src/handlers.ts lines 256-262), as the mapping
from a connection event to the effect of its installed handler. -/
def setupStreamHandlers {ε : Type} : ConnEvent ε → StreamHandlerEffect ε
  | .msg d => .enqueue d
  | .close => .markClosed
  | .error e =>
      .raiseInCallback { message := "WebSocket stream error", cause := some e }

/-- Whether a handler effect feeds the state consumed by
`processStreamMessages` (queue or closed flag). -/
def StreamHandlerEffect.feedsConsumer {ε : Type} : StreamHandlerEffect ε → Bool
  | .enqueue _ => true
  | .markClosed => true
  | .raiseInCallback _ => false

/-- An event that `setupStreamHandlers` routes into the consumer-visible
state of `stream`: a fragment or a close.  (Transport errors never reach this
state — see `setupStreamHandlers`.) -/
inductive StreamEvent where
  | msg (data : String)
  | close
  deriving DecidableEq, Repr

/-- The state shared between the `stream` event handlers and
`processStreamMessages`: the FIFO fragment queue and the
`isConnectionClosed` flag. -/
structure StreamState where
  queue : List String := []
  closed : Bool := false
  deriving DecidableEq, Repr

/-- Deliver one event: `queue.push(data.toString())` or
`isConnectionClosed = true`. -/
def streamApplyEvent (s : StreamState) : StreamEvent → StreamState
  | .msg d => { s with queue := s.queue ++ [d] }
  | .close => { s with closed := true }

/-- Deliver a batch of events in order (all the handler callbacks that run
before the consuming loop regains control). -/
def streamApplyBatch (s : StreamState) : List StreamEvent → StreamState
  | [] => s
  | e :: rest => streamApplyBatch (streamApplyEvent s e) rest

/-- How one run of `processStreamMessages` ended.  `outOfFuel` means the loop
was still running when the step budget ran out (the JS loop can run
unboundedly on an unbounded event supply). -/
inductive StreamOutcome (ε : Type) where
  | done
  | parseFailed (bad : String) (e : ε)
  | timedOut
  | outOfFuel
  deriving DecidableEq, Repr

/-- The observable trace of one run of `processStreamMessages`: the values
yielded in order, the outcome, the final shared state, and two ghost records
used only to state theorems — the fragments dequeued in order, and the
partition of the wake-up schedule into the consumed part and the rest. -/
structure StreamRun (ε V : Type) where
  yielded : List V
  outcome : StreamOutcome ε
  final : StreamState
  dequeued : List String
  consumed : List (Nat × List StreamEvent)
  schedRest : List (Nat × List StreamEvent)
  deriving Repr

/-- Embeds `processStreamMessages` (src/handlers.ts lines 264-297) run against a
schedule of timestamped event batches.  The single `timeoutPromise` is
created once, before the loop, so its deadline is the absolute time
`timeout` counted from the start of processing.  Each loop round: if the
closed flag is set, terminate; else if the queue is non-empty, shift the
oldest fragment, parse it individually (`JSON.parse` embedded as `parse`),
and either yield the value or fail the whole stream; else suspend in
`Promise.race` until the next scheduled wake-up — the shared timer wins the
race whenever the next wake-up timestamp has reached the absolute deadline,
and an exhausted schedule means no event ever arrives, so the timer fires.
Event batches are delivered at the empty-queue waits; `fuel` bounds the
number of loop rounds. -/
def processStreamMessages {ε V : Type} (parse : String → Except ε V)
    (timeout : Nat) : Nat → List (Nat × List StreamEvent) → StreamState →
    StreamRun ε V
  | 0, sched, st =>
      { yielded := [], outcome := .outOfFuel, final := st, dequeued := [],
        consumed := [], schedRest := sched }
  | fuel + 1, sched, st =>
      if st.closed then
        { yielded := [], outcome := .done, final := st, dequeued := [],
          consumed := [], schedRest := sched }
      else
        match st.queue with
        | m :: rest =>
            match parse m with
            | Except.error e =>
                { yielded := [], outcome := .parseFailed m e,
                  final := { st with queue := rest }, dequeued := [m],
                  consumed := [], schedRest := sched }
            | Except.ok v =>
                let r := processStreamMessages parse timeout fuel sched
                  { st with queue := rest }
                { yielded := v :: r.yielded, outcome := r.outcome,
                  final := r.final, dequeued := m :: r.dequeued,
                  consumed := r.consumed, schedRest := r.schedRest }
        | [] =>
            match sched with
            | [] =>
                { yielded := [], outcome := .timedOut, final := st,
                  dequeued := [], consumed := [], schedRest := [] }
            | (t, batch) :: sched2 =>
                if timeout ≤ t then
                  { yielded := [], outcome := .timedOut, final := st,
                    dequeued := [], consumed := [], schedRest := (t, batch) :: sched2 }
                else
                  let r := processStreamMessages parse timeout fuel sched2
                    (streamApplyBatch st batch)
                  { r with consumed := (t, batch) :: r.consumed }

/-- The connection readyState values used by the `finally` guard of `stream`
(src/handlers.ts line 219). -/
inductive ReadyState where
  | connecting
  | opened
  | closing
  | closed
  deriving DecidableEq, Repr

/-- The ways the consuming loop of the `stream` generator can exit. -/
inductive GeneratorExit where
  | exhausted
  | raised
  | abandoned
  deriving DecidableEq, Repr

/-- The `finally` block of `stream` (src/handlers.ts lines 218-222).  A
`try`/`finally` inside an async generator runs the cleanup on every exit
path — normal exhaustion, an error propagating out, and consumer abandonment
(`AsyncGenerator.return`, which JS runs on early `break`) — which is why the
result here does not depend on the exit kind.  `ws.close()` is called
exactly when `ws.readyState !== WebSocket.CLOSED`; the call moves the socket
to `closing`.  Returned: the socket state after cleanup and the number of
`close()` calls made by the cleanup. -/
def streamFinallyTeardown (exitPath : GeneratorExit) (rs : ReadyState) :
    ReadyState × Nat :=
  match exitPath with
  | _ =>
      if rs = ReadyState.closed then (rs, 0) else (ReadyState.closing, 1)

/-- The per-wait timeout justification of the amended C3: the timeout error
is produced at an empty-queue wait only when no wake-up is scheduled before
the absolute deadline — either nothing is scheduled at all, or the next
wake-up timestamp has reached `timeout`. -/
def timeoutJustified (timeout : Nat) : List (Nat × List StreamEvent) → Prop
  | [] => True
  | (t, _) :: _ => timeout ≤ t

/-- Reference meaning of "each fragment is one complete JSON document":
`mapExcept parse frags` parses every fragment of `frags` individually, left
to right, stopping at the first failure. -/
def mapExcept {ε V : Type} (parse : String → Except ε V) :
    List String → Except ε (List V)
  | [] => Except.ok []
  | s :: rest =>
      match parse s with
      | Except.error e => Except.error e
      | Except.ok v =>
          match mapExcept parse rest with
          | Except.error e => Except.error e
          | Except.ok vs => Except.ok (v :: vs)

/-- The fragments carried by one batch, in delivery order. -/
def batchMsgs (b : List StreamEvent) : List String :=
  b.filterMap fun e =>
    match e with
    | .msg d => some d
    | .close => none

/-- All fragments delivered by a schedule, in delivery order. -/
def schedMsgs (sched : List (Nat × List StreamEvent)) : List String :=
  (sched.map fun tb => batchMsgs tb.2).flatten

/-- The faithfulness predicate for one run of `processStreamMessages`
against schedule `sched` from state `st`: the schedule splits into the
consumed part followed by the rest; the dequeued fragments followed by the
final queue are exactly the initial queue followed by the consumed arrivals,
in order (FIFO, nothing reordered or invented); and the yielded values are
the individual parses of the dequeued fragments — all of them on every
non-error outcome, and all but the final failing fragment when parsing
failed. -/
def streamRunFaithful {ε V : Type} (parse : String → Except ε V)
    (sched : List (Nat × List StreamEvent)) (st : StreamState)
    (r : StreamRun ε V) : Prop :=
  sched = r.consumed ++ r.schedRest
  ∧ r.dequeued ++ r.final.queue = st.queue ++ schedMsgs r.consumed
  ∧ (match r.outcome with
     | .parseFailed bad e =>
         r.dequeued = r.dequeued.dropLast ++ [bad]
         ∧ mapExcept parse r.dequeued.dropLast = Except.ok r.yielded
         ∧ parse bad = Except.error e
     | _ => mapExcept parse r.dequeued = Except.ok r.yielded)

/-! ## Concrete fixtures for counterexamples, witnesses and evaluations -/

/-- A server-provided next URL for the offset-page examples. -/
def urlPage2 : String := "https://api.example.com/v1/agents/?page=2"

/-- A server-provided next URL for the cursor-page examples. -/
def urlCursor2 : String := "https://api.example.com/v1/executions/?cursor=abc"

/-- A concrete instance of the platform query-string extraction
(`Object.fromEntries(new URL(u).searchParams)`), restricted to the URLs used
in the examples. -/
def queryOfURL : String → List (String × String) := fun u =>
  if u = urlPage2 then [("page", "2")]
  else if u = urlCursor2 then [("cursor", "abc")]
  else []

/-- First offset page body: one item, a next URL. -/
def respPage1 : PagePaginatedResponse Nat :=
  { next := some urlPage2, previous := none, results := [1], total_count := 2,
    current_page := some 1 }

/-- Second and final offset page body: one item, no next URL. -/
def respPage2 : PagePaginatedResponse Nat :=
  { next := none, previous := some "https://api.example.com/v1/agents/?page=1",
    results := [2], total_count := 2, current_page := some 2 }

/-- A transport that answers every request with the second page body. -/
def fetchPages : String → RequestOptions → PagePaginatedResponse Nat :=
  fun _ _ => respPage2

/-- The first page of the two-page offset chain, no transformer attached. -/
def pageOne : Page Nat Nat :=
  { path := "/v1/agents/", response := respPage1, options := none,
    transformer := Transformer.identity rfl }

/-- First cursor page body. -/
def respCursor1 : CursorPaginatedResponse Nat :=
  { next := some urlCursor2, previous := none, results := [1] }

/-- Second and final cursor page body. -/
def respCursor2 : CursorPaginatedResponse Nat :=
  { next := none, previous := none, results := [2] }

/-- A transport that answers every request with the second cursor page
body. -/
def fetchCursor : String → RequestOptions → CursorPaginatedResponse Nat :=
  fun _ _ => respCursor2

/-- The first page of the two-page cursor chain, no transformer attached. -/
def cursorOne : CursorPage Nat Nat :=
  { path := "/v1/executions/", response := respCursor1, options := none,
    transformer := Transformer.identity rfl }

/-- The example transform attached at the first fetch. -/
def exMul10 : Nat → Nat := fun x => 10 * x

/-- The first offset page with the example transform attached. -/
def pageT : Page Nat Nat :=
  { path := "/v1/agents/", response := respPage1, options := none,
    transformer := Transformer.attached exMul10 }

/-- The page `pageT.getNextPage` produces. -/
def pageT2 : Page Nat Nat :=
  { path := "/v1/agents/", response := respPage2,
    options := some (nextOptionsOf queryOfURL none urlPage2),
    transformer := Transformer.attached exMul10 }

/-- A `JSON.parse` instance restricted to the documents appearing in the
examples; everything else fails the way `JSON.parse` throws. -/
def jsonParseEx : String → Except String Nat := fun s =>
  if s = "\x7b\"x\":1\x7d" then Except.ok 1
  else if s = "\x7b\"x\":2\x7d" then Except.ok 2
  else if s = "\x7b\"a\":1\x7d" then Except.ok 1
  else Except.error "SyntaxError: Unexpected token"

/-- A parser that accepts every fragment unchanged (used where parsing is
irrelevant to the point being made). -/
def parseOk : String → Except String String := fun s => Except.ok s

/-! ## Shared lemmas -/

/-- Helper: `getNextPage` carries the transformer forward unchanged (offset pages). -/
theorem page_getNextPage_transformer {T R : Type}
    (parseQuery : String → List (String × String))
    (fetch : String → RequestOptions → PagePaginatedResponse T)
    (p q : Page T R) (h : (p.getNextPage parseQuery fetch).1 = some q) :
    q.transformer = p.transformer := by
  cases hn : p.response.next with
  | none => simp [Page.getNextPage, hn] at h
  | some u =>
    by_cases hu : u = ""
    · simp [Page.getNextPage, hn, hu] at h
    · simp [Page.getNextPage, hn, hu] at h
      cases h
      rfl

/-- Helper: `getNextPage` carries the transformer forward unchanged (cursor pages). -/
theorem cursor_getNextPage_transformer {T R : Type}
    (parseQuery : String → List (String × String))
    (fetch : String → RequestOptions → CursorPaginatedResponse T)
    (p q : CursorPage T R) (h : (p.getNextPage parseQuery fetch).1 = some q) :
    q.transformer = p.transformer := by
  cases hn : p.response.next with
  | none => simp [CursorPage.getNextPage, hn] at h
  | some u =>
    by_cases hu : u = ""
    · simp [CursorPage.getNextPage, hn, hu] at h
    · simp [CursorPage.getNextPage, hn, hu] at h
      cases h
      rfl

/-- Any depth of chained `getNextPage` calls carries the transformer forward
(offset pages). -/
theorem page_nthPage_transformer {T R : Type}
    (parseQuery : String → List (String × String))
    (fetch : String → RequestOptions → PagePaginatedResponse T)
    (p : Page T R) :
    ∀ n q, Page.nthPage parseQuery fetch p n = some q →
      q.transformer = p.transformer := by
  intro n
  induction n with
  | zero =>
    intro q h
    simp [Page.nthPage] at h
    rw [← h]
  | succ n ih =>
    intro q h
    simp only [Page.nthPage, Option.bind_eq_some] at h
    obtain ⟨q0, hq0, hnext⟩ := h
    exact (page_getNextPage_transformer parseQuery fetch q0 q hnext).trans (ih q0 hq0)

/-- Any depth of chained `getNextPage` calls carries the transformer forward
(cursor pages). -/
theorem cursor_nthPage_transformer {T R : Type}
    (parseQuery : String → List (String × String))
    (fetch : String → RequestOptions → CursorPaginatedResponse T)
    (p : CursorPage T R) :
    ∀ n q, CursorPage.nthPage parseQuery fetch p n = some q →
      q.transformer = p.transformer := by
  intro n
  induction n with
  | zero =>
    intro q h
    simp [CursorPage.nthPage] at h
    rw [← h]
  | succ n ih =>
    intro q h
    simp only [CursorPage.nthPage, Option.bind_eq_some] at h
    obtain ⟨q0, hq0, hnext⟩ := h
    exact (cursor_getNextPage_transformer parseQuery fetch q0 q hnext).trans
      (ih q0 hq0)

/-- Delivering a batch appends exactly its fragments, in order, to the queue
(FIFO). -/
theorem streamApplyBatch_queue :
    ∀ (b : List StreamEvent) (st : StreamState),
      (streamApplyBatch st b).queue = st.queue ++ batchMsgs b := by
  intro b
  induction b with
  | nil => intro st; simp [streamApplyBatch, batchMsgs]
  | cons e rest ih =>
    intro st
    cases e with
    | msg d =>
      simp [streamApplyBatch, streamApplyEvent, batchMsgs, List.filterMap_cons, ih]
    | close =>
      simp [streamApplyBatch, streamApplyEvent, batchMsgs, List.filterMap_cons, ih]

/-- The fragments of a schedule split batchwise. -/
theorem schedMsgs_cons (t : Nat) (b : List StreamEvent)
    (c : List (Nat × List StreamEvent)) :
    schedMsgs ((t, b) :: c) = batchMsgs b ++ schedMsgs c := by
  simp [schedMsgs]

/-- Unfolding: a round that observes the closed flag terminates at once. -/
theorem psm_closed {ε V : Type} {parse : String → Except ε V}
    {timeout fuel : Nat} {sched : List (Nat × List StreamEvent)}
    {st : StreamState} (hc : st.closed = true) :
    processStreamMessages parse timeout (fuel + 1) sched st =
      { yielded := [], outcome := .done, final := st, dequeued := [],
        consumed := [], schedRest := sched } := by
  simp [processStreamMessages, hc]

/-- Unfolding: a round that dequeues a fragment the parser rejects fails the
stream there. -/
theorem psm_parse_err {ε V : Type} {parse : String → Except ε V}
    {timeout fuel : Nat} {sched : List (Nat × List StreamEvent)}
    {st : StreamState} {m : String} {rest : List String} {e : ε}
    (hc : st.closed = false) (hq : st.queue = m :: rest)
    (hp : parse m = Except.error e) :
    processStreamMessages parse timeout (fuel + 1) sched st =
      { yielded := [], outcome := .parseFailed m e,
        final := { st with queue := rest }, dequeued := [m],
        consumed := [], schedRest := sched } := by
  simp [processStreamMessages, hc, hq, hp]

/-- Unfolding: a round that dequeues a fragment the parser accepts yields the
value and continues. -/
theorem psm_parse_ok {ε V : Type} {parse : String → Except ε V}
    {timeout fuel : Nat} {sched : List (Nat × List StreamEvent)}
    {st : StreamState} {m : String} {rest : List String} {v : V}
    (hc : st.closed = false) (hq : st.queue = m :: rest)
    (hp : parse m = Except.ok v) :
    processStreamMessages parse timeout (fuel + 1) sched st =
      { yielded := v ::
          (processStreamMessages parse timeout fuel sched
            { st with queue := rest }).yielded,
        outcome := (processStreamMessages parse timeout fuel sched
            { st with queue := rest }).outcome,
        final := (processStreamMessages parse timeout fuel sched
            { st with queue := rest }).final,
        dequeued := m ::
          (processStreamMessages parse timeout fuel sched
            { st with queue := rest }).dequeued,
        consumed := (processStreamMessages parse timeout fuel sched
            { st with queue := rest }).consumed,
        schedRest := (processStreamMessages parse timeout fuel sched
            { st with queue := rest }).schedRest } := by
  simp [processStreamMessages, hc, hq, hp]

/-- Unfolding: an empty-queue wait with nothing scheduled is ended by the
timer. -/
theorem psm_wait_exhausted {ε V : Type} {parse : String → Except ε V}
    {timeout fuel : Nat} {st : StreamState}
    (hc : st.closed = false) (hq : st.queue = []) :
    processStreamMessages parse timeout (fuel + 1) [] st =
      { yielded := [], outcome := .timedOut, final := st, dequeued := [],
        consumed := [], schedRest := [] } := by
  simp [processStreamMessages, hc, hq]

/-- Unfolding: an empty-queue wait whose next wake-up lies at or past the
absolute deadline is ended by the timer. -/
theorem psm_wait_deadline {ε V : Type} {parse : String → Except ε V}
    {timeout fuel : Nat} {t : Nat} {b : List StreamEvent}
    {sched2 : List (Nat × List StreamEvent)} {st : StreamState}
    (hc : st.closed = false) (hq : st.queue = []) (ht : timeout ≤ t) :
    processStreamMessages parse timeout (fuel + 1) ((t, b) :: sched2) st =
      { yielded := [], outcome := .timedOut, final := st, dequeued := [],
        consumed := [], schedRest := (t, b) :: sched2 } := by
  simp [processStreamMessages, hc, hq, ht]

/-- Unfolding: an empty-queue wait woken before the deadline delivers the
batch and continues. -/
theorem psm_wait_deliver {ε V : Type} {parse : String → Except ε V}
    {timeout fuel : Nat} {t : Nat} {b : List StreamEvent}
    {sched2 : List (Nat × List StreamEvent)} {st : StreamState}
    (hc : st.closed = false) (hq : st.queue = []) (ht : ¬ timeout ≤ t) :
    processStreamMessages parse timeout (fuel + 1) ((t, b) :: sched2) st =
      { processStreamMessages parse timeout fuel sched2 (streamApplyBatch st b) with
          consumed := (t, b) ::
            (processStreamMessages parse timeout fuel sched2
              (streamApplyBatch st b)).consumed } := by
  simp [processStreamMessages, hc, hq, ht]

/-! ## Claim theorems -/

/-- C1 (evidence of the code bug): on the concrete two-page chain
`pageOne ⟶ respPage2` (and its cursor twin), the full async traversal yields
`[1, 1]` — the items of the page the iterator was started on, once per loop
round — and not the in-order concatenation `[1, 2]` of all pages, because
the source loop body iterates `this.getItems()` while only the local page
variable advances. -/
theorem C1_traversal_repeats_first_page :
    Page.iterAll queryOfURL fetchPages pageOne 3 = some [1, 1]
    ∧ pageOne.getItems ++ respPage2.results = [1, 2]
    ∧ Page.iterAll queryOfURL fetchPages pageOne 3 ≠ some [1, 2]
    ∧ CursorPage.iterAll queryOfURL fetchCursor cursorOne 3 = some [1, 1]
    ∧ cursorOne.getItems ++ respCursor2.results = [1, 2]
    ∧ CursorPage.iterAll queryOfURL fetchCursor cursorOne 3 ≠ some [1, 2] := by
  decide

/-- C5: `getNextPage` on a page whose `next` is null resolves to null with an
empty request log; otherwise it issues exactly one request, to the same
path, whose options replace the query wholesale with the parameters parsed
from the `next` URL while every other option field (headers, body, signal,
timeout) is carried forward unchanged — for both page kinds. -/
theorem C5_getNextPage_request_discipline {T R : Type}
    (parseQuery : String → List (String × String))
    (fetch : String → RequestOptions → PagePaginatedResponse T)
    (cfetch : String → RequestOptions → CursorPaginatedResponse T)
    (p : Page T R) (c : CursorPage T R) :
    (p.response.next = none → p.getNextPage parseQuery fetch = (none, []))
    ∧ (∀ u, p.response.next = some u → u ≠ "" →
        p.getNextPage parseQuery fetch =
          (some { path := p.path,
                  response := fetch p.path (nextOptionsOf parseQuery p.options u),
                  options := some (nextOptionsOf parseQuery p.options u),
                  transformer := p.transformer },
           [(p.path, nextOptionsOf parseQuery p.options u)]))
    ∧ (c.response.next = none → c.getNextPage parseQuery cfetch = (none, []))
    ∧ (∀ u, c.response.next = some u → u ≠ "" →
        c.getNextPage parseQuery cfetch =
          (some { path := c.path,
                  response := cfetch c.path (nextOptionsOf parseQuery c.options u),
                  options := some (nextOptionsOf parseQuery c.options u),
                  transformer := c.transformer },
           [(c.path, nextOptionsOf parseQuery c.options u)]))
    ∧ (∀ opts u,
        (nextOptionsOf parseQuery opts u).query = some (parseQuery u)
        ∧ (nextOptionsOf parseQuery opts u).body = (opts.getD {}).body
        ∧ (nextOptionsOf parseQuery opts u).headers = (opts.getD {}).headers
        ∧ (nextOptionsOf parseQuery opts u).signal = (opts.getD {}).signal
        ∧ (nextOptionsOf parseQuery opts u).timeout = (opts.getD {}).timeout) := by
  refine ⟨?_, ?_, ?_, ?_, ?_⟩
  · intro h; simp [Page.getNextPage, h]
  · intro u hu hne; simp [Page.getNextPage, hu, hne]
  · intro h; simp [CursorPage.getNextPage, h]
  · intro u hu hne; simp [CursorPage.getNextPage, hu, hne]
  · intro opts u; simp [nextOptionsOf]

/-- C5 witness: the concrete one-request advance from `pageOne` (its `next`
is `urlPage2`), with the two hypotheses discharged at that input. -/
theorem C5_witness :
    Page.getNextPage queryOfURL fetchPages pageOne =
      (some { path := pageOne.path,
              response := fetchPages pageOne.path
                (nextOptionsOf queryOfURL pageOne.options urlPage2),
              options := some (nextOptionsOf queryOfURL pageOne.options urlPage2),
              transformer := pageOne.transformer },
       [(pageOne.path, nextOptionsOf queryOfURL pageOne.options urlPage2)]) :=
  (C5_getNextPage_request_discipline queryOfURL fetchPages fetchCursor pageOne
    cursorOne).2.1 urlPage2 rfl (by decide)

/-- C6: at every depth of chained `getNextPage` calls the reached page still
carries the original transformer, so when a transform `f` is attached its
`getItems` is exactly `f` mapped over the raw results of that page in order, and
with no transform attached `getItems` is the raw results reinterpreted
(identity) — for both page kinds. -/
theorem C6_transform_propagation {T R : Type}
    (parseQuery : String → List (String × String))
    (fetch : String → RequestOptions → PagePaginatedResponse T)
    (cfetch : String → RequestOptions → CursorPaginatedResponse T)
    (p : Page T R) (c : CursorPage T R) (n m : Nat) :
    (∀ q, Page.nthPage parseQuery fetch p n = some q →
        q.transformer = p.transformer
        ∧ (∀ f, p.transformer = Transformer.attached f →
            q.getItems = q.response.results.map f)
        ∧ (∀ h : T = R, p.transformer = Transformer.identity h →
            q.getItems = h ▸ q.response.results))
    ∧ (∀ q, CursorPage.nthPage parseQuery cfetch c m = some q →
        q.transformer = c.transformer
        ∧ (∀ f, c.transformer = Transformer.attached f →
            q.getItems = q.response.results.map f)
        ∧ (∀ h : T = R, c.transformer = Transformer.identity h →
            q.getItems = h ▸ q.response.results)) := by
  constructor
  · intro q hq
    have ht := page_nthPage_transformer parseQuery fetch p n q hq
    refine ⟨ht, ?_, ?_⟩
    · intro f hf
      simp [Page.getItems, ht, hf]
    · intro h hf
      simp [Page.getItems, ht, hf]
  · intro q hq
    have ht := cursor_nthPage_transformer parseQuery cfetch c m q hq
    refine ⟨ht, ?_, ?_⟩
    · intro f hf
      simp [CursorPage.getItems, ht, hf]
    · intro h hf
      simp [CursorPage.getItems, ht, hf]

/-- C6 witness: after one chained `getNextPage` from `pageT` (transform
`exMul10` attached at the first fetch), the reached page `pageT2` still
applies `exMul10` elementwise to its own raw results. -/
theorem C6_witness : pageT2.getItems = pageT2.response.results.map exMul10 :=
  ((C6_transform_propagation queryOfURL fetchPages fetchCursor pageT cursorOne
      1 0).1 pageT2 rfl).2.1 exMul10 rfl

/-- C9: every run of `processStreamMessages` dequeues fragments in FIFO
arrival order (the dequeued fragments followed by the final queue are
exactly the initial queue followed by the delivered fragments, in order),
parses each dequeued fragment individually, and yields the parsed values in
that order; a fragment the parser rejects fails the whole stream at exactly
that point — it is not skipped — while the values yielded before it are
exactly the parses of the earlier fragments. -/
theorem C9_stream_fifo_individual_parse {ε V : Type} (parse : String → Except ε V)
    (timeout : Nat) :
    ∀ (fuel : Nat) (sched : List (Nat × List StreamEvent)) (st : StreamState),
      streamRunFaithful parse sched st
        (processStreamMessages parse timeout fuel sched st) := by
  intro fuel
  induction fuel with
  | zero =>
    intro sched st
    exact ⟨(List.nil_append sched).symm,
      by simp [processStreamMessages, schedMsgs], rfl⟩
  | succ fuel ih =>
    intro sched st
    cases hc : st.closed with
    | true =>
      rw [psm_closed hc]
      exact ⟨(List.nil_append sched).symm, by simp [schedMsgs], rfl⟩
    | false =>
      cases hq : st.queue with
      | cons m rest =>
        cases hp : parse m with
        | error e =>
          rw [psm_parse_err hc hq hp]
          refine ⟨(List.nil_append sched).symm, by simp [schedMsgs, hq], ?_⟩
          exact ⟨rfl, rfl, hp⟩
        | ok v =>
          rw [psm_parse_ok hc hq hp]
          obtain ⟨h1, h2, h3⟩ := ih sched { st with queue := rest }
          refine ⟨h1, ?_, ?_⟩
          · simp only [] at h2 ⊢
            rw [hq, List.cons_append, h2]
            rfl
          · simp only [] at h3 ⊢
            cases ho : (processStreamMessages parse timeout fuel sched
                { st with queue := rest }).outcome with
            | parseFailed bad e =>
              rw [ho] at h3
              obtain ⟨hd, hm, hb⟩ := h3
              refine ⟨?_, ?_, hb⟩
              · rw [hd, ← List.cons_append, List.dropLast_concat, List.cons_append]
              · rw [hd, ← List.cons_append, List.dropLast_concat]
                simp [mapExcept, hp, hm]
            | done =>
              rw [ho] at h3
              simp [mapExcept, hp, h3]
            | timedOut =>
              rw [ho] at h3
              simp [mapExcept, hp, h3]
            | outOfFuel =>
              rw [ho] at h3
              simp [mapExcept, hp, h3]
      | nil =>
        cases hs : sched with
        | nil =>
          rw [psm_wait_exhausted hc hq]
          exact ⟨rfl, by simp [schedMsgs, hq], rfl⟩
        | cons tb sched2 =>
          obtain ⟨t, b⟩ := tb
          by_cases ht : timeout ≤ t
          · rw [psm_wait_deadline hc hq ht]
            exact ⟨(List.nil_append _).symm, by simp [schedMsgs, hq], rfl⟩
          · rw [psm_wait_deliver hc hq ht]
            obtain ⟨h1, h2, h3⟩ := ih sched2 (streamApplyBatch st b)
            refine ⟨?_, ?_, ?_⟩
            · simp only []
              rw [List.cons_append, ← h1]
            · simp only [] at h2 ⊢
              rw [h2, streamApplyBatch_queue, schedMsgs_cons, hq]
              simp
            · exact h3

/-- Concrete evaluation (independent of any claim theorem): the expected
benign schedule — one fragment per wake-up, then a close — yields the two
decoded values in order and terminates normally with a drained queue. -/
theorem streamEval_one_json_per_fragment :
    (processStreamMessages jsonParseEx 600000 9
        [(10, [StreamEvent.msg "\x7b\"x\":1\x7d"]),
         (20, [StreamEvent.msg "\x7b\"x\":2\x7d"]),
         (30, [StreamEvent.close])] {}).yielded = [1, 2]
    ∧ (processStreamMessages jsonParseEx 600000 9
        [(10, [StreamEvent.msg "\x7b\"x\":1\x7d"]),
         (20, [StreamEvent.msg "\x7b\"x\":2\x7d"]),
         (30, [StreamEvent.close])] {}).outcome = StreamOutcome.done
    ∧ (processStreamMessages jsonParseEx 600000 9
        [(10, [StreamEvent.msg "\x7b\"x\":1\x7d"]),
         (20, [StreamEvent.msg "\x7b\"x\":2\x7d"]),
         (30, [StreamEvent.close])] {}).final.queue = [] := by
  decide

/-- Concrete evaluation (independent of any claim theorem): a malformed
fragment after a good one fails the stream exactly there, keeping the value
already yielded. -/
theorem streamEval_malformed_fragment :
    (processStreamMessages jsonParseEx 600000 9
        [(10, [StreamEvent.msg "\x7b\"x\":1\x7d"]),
         (20, [StreamEvent.msg "not-json"])] {}).yielded = [1]
    ∧ (processStreamMessages jsonParseEx 600000 9
        [(10, [StreamEvent.msg "\x7b\"x\":1\x7d"]),
         (20, [StreamEvent.msg "not-json"])] {}).outcome
      = StreamOutcome.parseFailed "not-json" "SyntaxError: Unexpected token" := by
  decide

/-- C2 counterexample: with the fragment and the close delivered during the
same empty-queue wait (one macrotask), the loop resumes, observes the closed
flag at the top of the round, and terminates NORMALLY with the fragment
still queued and never yielded — refuting the claim that normal termination
happens only with an empty queue and that no queued fragment is dropped on
close. -/
theorem C2_counterexample :
    (processStreamMessages parseOk 600000 9
        [(0, [StreamEvent.msg "\x7b\"x\":1\x7d", StreamEvent.close])] {}).outcome
      = StreamOutcome.done
    ∧ (processStreamMessages parseOk 600000 9
        [(0, [StreamEvent.msg "\x7b\"x\":1\x7d", StreamEvent.close])] {}).final.closed
      = true
    ∧ (processStreamMessages parseOk 600000 9
        [(0, [StreamEvent.msg "\x7b\"x\":1\x7d", StreamEvent.close])] {}).final.queue
      ≠ []
    ∧ (processStreamMessages parseOk 600000 9
        [(0, [StreamEvent.msg "\x7b\"x\":1\x7d", StreamEvent.close])] {}).yielded
      = [] := by
  decide

/-- C2 as amended: the consumption loop terminates normally exactly when the
closed flag is observed true at the start of a round — the queue need NOT be
empty then, and fragments still queued at that point are never parsed or
yielded.  Forward direction: normal termination implies the closed flag was
set; converse direction: a round entered with the flag set terminates at
once, yielding nothing further, leaving state and schedule untouched. -/
theorem C2_amended_termination_on_closed {ε V : Type}
    (parse : String → Except ε V) (timeout fuel : Nat)
    (sched : List (Nat × List StreamEvent)) (st : StreamState)
    (r : StreamRun ε V)
    (hr : r = processStreamMessages parse timeout fuel sched st) :
    (r.outcome = StreamOutcome.done → r.final.closed = true)
    ∧ (st.closed = true → 0 < fuel →
        r.yielded = [] ∧ r.final = st ∧ r.outcome = StreamOutcome.done
        ∧ r.schedRest = sched) := by
  subst hr
  induction fuel generalizing sched st with
  | zero =>
    constructor
    · intro h
      simp [processStreamMessages] at h
    · intro _ h0
      exact absurd h0 (by simp)
  | succ fuel ih =>
    constructor
    · intro h
      cases hc : st.closed with
      | true => rw [psm_closed hc]; exact hc
      | false =>
        cases hq : st.queue with
        | cons m rest =>
          cases hp : parse m with
          | error e => rw [psm_parse_err hc hq hp] at h; cases h
          | ok v =>
            rw [psm_parse_ok hc hq hp] at h ⊢
            exact (ih sched { st with queue := rest }).1 h
        | nil =>
          cases hs : sched with
          | nil =>
            subst hs
            rw [psm_wait_exhausted hc hq] at h
            cases h
          | cons tb sched2 =>
            subst hs
            obtain ⟨t, b⟩ := tb
            by_cases ht : timeout ≤ t
            · rw [psm_wait_deadline hc hq ht] at h; cases h
            · rw [psm_wait_deliver hc hq ht] at h ⊢
              exact (ih sched2 (streamApplyBatch st b)).1 h
    · intro hcl _
      rw [psm_closed hcl]
      exact ⟨rfl, rfl, rfl, rfl⟩

/-- C2 witness: the amended theorem applied at the counterexample schedule —
the run terminated normally, so the closed flag had been observed true. -/
theorem C2_witness :
    (processStreamMessages parseOk 600000 9
        [(0, [StreamEvent.msg "\x7b\"x\":1\x7d", StreamEvent.close])]
        ({} : StreamState)).final.closed = true :=
  (C2_amended_termination_on_closed parseOk 600000 9
      [(0, [StreamEvent.msg "\x7b\"x\":1\x7d", StreamEvent.close])] {} _ rfl).1
    (by decide)

/-- C3 counterexample: with an absolute deadline of 100 and wake-ups at 60
and 120, the second wait starts right after time 60 and its event arrives at
120 — only 60 elapsed, well inside the configured duration — yet the run
times out, because the single `timeoutPromise` was started when processing
began, not at the start of the wait.  This refutes the claim that a freshly
started timeout of the configured duration is installed on every wait. -/
theorem C3_counterexample :
    (processStreamMessages parseOk 100 9
        [(60, [StreamEvent.msg "a"]),
         (120, [StreamEvent.msg "b", StreamEvent.close])] {}).outcome
      = StreamOutcome.timedOut
    ∧ (processStreamMessages parseOk 100 9
        [(60, [StreamEvent.msg "a"]),
         (120, [StreamEvent.msg "b", StreamEvent.close])] {}).yielded = ["a"]
    ∧ (processStreamMessages parseOk 100 9
        [(60, [StreamEvent.msg "a"]),
         (120, [StreamEvent.msg "b", StreamEvent.close])] {}).schedRest
      = [(120, [StreamEvent.msg "b", StreamEvent.close])]
    ∧ 120 - 60 < 100 := by
  decide

/-- C3 as amended: a fresh `Promise.race` is indeed installed on every
empty-queue wait, but always against the single timeout started once when
processing began, so the timeout error fires exactly at a wait where no
wake-up is scheduled before the ABSOLUTE deadline (`timeout` measured from
the start of processing): whenever a run times out, either nothing further
was scheduled, or the next wake-up timestamp had reached the deadline. -/
theorem C3_amended_single_absolute_timer {ε V : Type}
    (parse : String → Except ε V) (timeout fuel : Nat)
    (sched : List (Nat × List StreamEvent)) (st : StreamState)
    (r : StreamRun ε V)
    (hr : r = processStreamMessages parse timeout fuel sched st)
    (ho : r.outcome = StreamOutcome.timedOut) :
    timeoutJustified timeout r.schedRest := by
  subst hr
  induction fuel generalizing sched st with
  | zero => simp [processStreamMessages] at ho
  | succ fuel ih =>
    cases hc : st.closed with
    | true => rw [psm_closed hc] at ho; cases ho
    | false =>
      cases hq : st.queue with
      | cons m rest =>
        cases hp : parse m with
        | error e => rw [psm_parse_err hc hq hp] at ho; cases ho
        | ok v =>
          rw [psm_parse_ok hc hq hp] at ho ⊢
          exact ih sched { st with queue := rest } ho
      | nil =>
        cases hs : sched with
        | nil =>
          subst hs
          rw [psm_wait_exhausted hc hq]
          trivial
        | cons tb sched2 =>
          subst hs
          obtain ⟨t, b⟩ := tb
          by_cases ht : timeout ≤ t
          · rw [psm_wait_deadline hc hq ht]
            exact ht
          · rw [psm_wait_deliver hc hq ht] at ho ⊢
            exact ih sched2 (streamApplyBatch st b) ho

/-- C3 witness: the amended theorem applied at the counterexample input —
the timed-out run indeed had its next wake-up at 120, at or past the
absolute deadline 100. -/
theorem C3_witness :
    timeoutJustified 100
      (processStreamMessages parseOk 100 9
        [(60, [StreamEvent.msg "a"]),
         (120, [StreamEvent.msg "b", StreamEvent.close])]
        ({} : StreamState)).schedRest :=
  C3_amended_single_absolute_timer parseOk 100 9
    [(60, [StreamEvent.msg "a"]), (120, [StreamEvent.msg "b", StreamEvent.close])]
    {} _ rfl (by decide)

/-- C4 (evidence of the code bug): on a transport `error` event the handler
installed by `setupStreamHandlers` THROWS the streaming error synchronously
inside the event callback; unlike `message` and `close`, the effect never
feeds the queue or the closed flag — the only state `processStreamMessages`
reads — so the error does not travel the failure path the lazy sequence
uses for timeout and parse failure. -/
theorem C4_stream_error_raised_in_callback :
    setupStreamHandlers (ConnEvent.error "ECONNRESET")
      = StreamHandlerEffect.raiseInCallback
          { message := "WebSocket stream error", cause := some "ECONNRESET" }
    ∧ StreamHandlerEffect.feedsConsumer
        (setupStreamHandlers (ConnEvent.error "ECONNRESET")) = false
    ∧ StreamHandlerEffect.feedsConsumer
        (setupStreamHandlers (ConnEvent.msg "\x7b\"x\":1\x7d" : ConnEvent String))
      = true
    ∧ StreamHandlerEffect.feedsConsumer
        (setupStreamHandlers (ConnEvent.close : ConnEvent String)) = true := by
  decide

/-- C10: the scoped cleanup of `stream` behaves identically on every exit
path of the consuming loop (exhaustion, raised error, consumer
abandonment): it makes at most one `close()` call, makes exactly one when
the socket was not already closed and none when it was, and never leaves
the socket open or connecting. -/
theorem C10_stream_teardown_closes_once (g : GeneratorExit) (rs : ReadyState) :
    streamFinallyTeardown g rs = streamFinallyTeardown GeneratorExit.exhausted rs
    ∧ (streamFinallyTeardown g rs).2 ≤ 1
    ∧ (streamFinallyTeardown g rs).1 ≠ ReadyState.opened
    ∧ (streamFinallyTeardown g rs).1 ≠ ReadyState.connecting
    ∧ (rs = ReadyState.closed → streamFinallyTeardown g rs = (ReadyState.closed, 0))
    ∧ (rs ≠ ReadyState.closed → (streamFinallyTeardown g rs).2 = 1) := by
  cases g <;> cases rs <;> exact ⟨rfl, by decide, by decide, by decide,
    fun h => by simp_all [streamFinallyTeardown], fun h => by simp_all [streamFinallyTeardown]⟩

/-- C10 witness: abandoning the sequence with the connection still open
results in exactly one `close()` call. -/
theorem C10_witness :
    (streamFinallyTeardown GeneratorExit.abandoned ReadyState.opened).2 = 1 :=
  (C10_stream_teardown_closes_once GeneratorExit.abandoned
      ReadyState.opened).2.2.2.2.2 (by decide)

/-- A `message` delivery step preserves the `listen` timer invariant: the
fragment only lands in the buffer (or, past the deadline, the timer fires
first and the fragment still only lands in the buffer). -/
theorem listenStep_msg_inv {ε V : Type} (parse : String → Except ε V)
    (timeout t : Nat) (d : String) (s : ListenState ε V)
    (h : ListenTimerInv timeout s) :
    ListenTimerInv timeout (listenStep parse timeout s (t, ConnEvent.msg d)) := by
  unfold listenStep
  rcases h with ⟨h1, h2, h3⟩ | ⟨h1, h2, h3, h4⟩
  · by_cases ht : timeout ≤ t
    · right
      simp [ht, listenFireTimer, h2, h3, listenSettle, h1, listenOnEvent]
    · left
      simp [ht, listenOnEvent, h1, h2, h3]
  · by_cases ht : timeout ≤ t
    · right
      simp [ht, listenFireTimer, h2, h3, listenOnEvent, h1, h4]
    · right
      simp [ht, listenOnEvent, h1, h2, h3, h4]

/-- A timeline of `message`-only events preserves the `listen` timer
invariant. -/
theorem listenSteps_msgs_inv {ε V : Type} (parse : String → Except ε V)
    (timeout : Nat) :
    ∀ (events : List (Nat × ConnEvent ε)) (s : ListenState ε V),
      (∀ p ∈ events, ∃ d, p.2 = ConnEvent.msg d) →
      ListenTimerInv timeout s →
      ListenTimerInv timeout (events.foldl (listenStep parse timeout) s) := by
  intro events
  induction events with
  | nil => intro s _ h; simpa using h
  | cons p rest ih =>
    intro s hall h
    obtain ⟨t, e⟩ := p
    obtain ⟨d, hd⟩ := hall (t, e) (List.mem_cons_self _ _)
    simp only [] at hd
    subst hd
    rw [List.foldl_cons]
    exact ih _ (fun q hq => hall q (List.mem_cons_of_mem _ hq))
      (listenStep_msg_inv parse timeout t d s h)

/-- Under the timer invariant, the eventual firing of the timer leaves the
promise settled with the timeout error and the connection forced closed. -/
theorem listenFireTimer_settles {ε V : Type} (timeout : Nat)
    (s : ListenState ε V) (h : ListenTimerInv timeout s) :
    (listenFireTimer timeout s).settled
      = some (Except.error { message := timeoutMessage timeout })
    ∧ (listenFireTimer timeout s).forcedClose = true := by
  rcases h with ⟨h1, h2, h3⟩ | ⟨h1, h2, h3, h4⟩
  · simp [listenFireTimer, h2, h3, listenSettle, h1]
  · simp [listenFireTimer, h2, h3, h1, h4]

/-- A timeline of `message`-only events, all delivered before the deadline,
only appends the fragments to the buffer, in arrival order. -/
theorem listenSteps_msgs_chunks {ε V : Type} (parse : String → Except ε V)
    (timeout : Nat) :
    ∀ (events : List (Nat × ConnEvent ε)) (s : ListenState ε V),
      (∀ p ∈ events, p.1 < timeout ∧ ∃ d, p.2 = ConnEvent.msg d) →
      events.foldl (listenStep parse timeout) s
        = { s with chunks := s.chunks ++ eventMsgs events } := by
  intro events
  induction events with
  | nil => intro s _; simp [eventMsgs]
  | cons p rest ih =>
    intro s hall
    obtain ⟨t, e⟩ := p
    obtain ⟨hlt, d, hd⟩ := hall (t, e) (List.mem_cons_self _ _)
    simp only [] at hd
    subst hd
    rw [List.foldl_cons]
    have hstep : listenStep parse timeout s (t, ConnEvent.msg d)
        = { s with chunks := s.chunks ++ [d] } := by
      simp [listenStep, Nat.not_le.mpr hlt, listenOnEvent]
    rw [hstep, ih _ (fun q hq => hall q (List.mem_cons_of_mem _ hq))]
    simp [eventMsgs, List.filterMap_cons]

/-- Mapping fragments onto `message` events and reading the fragments back
is the identity. -/
theorem eventMsgs_map_msg {ε : Type} (t : Nat) :
    ∀ datas : List String,
      eventMsgs ((datas.map fun d => ((t, ConnEvent.msg d) : Nat × ConnEvent ε)))
        = datas := by
  intro datas
  induction datas with
  | nil => simp [eventMsgs]
  | cons d rest ih => simpa [eventMsgs, List.filterMap_cons] using ih

/-- C7: on clean close, `listen` joins the accumulated fragments into one
string; an empty buffer rejects with the distinguished empty-close error
(whose message differs from the parse-error message); a non-empty buffer is
parsed as ONE JSON document, resolving with the decoded value or rejecting
with the parse error carrying the cause.  Moreover a run of `listen` over
any fragments delivered in order before the deadline followed by a clean
close settles exactly with `handleWebSocketClose` of those fragments. -/
theorem C7_listen_close_semantics {ε V : Type} (parse : String → Except ε V)
    (chunks datas : List String) (opts : Option Nat) :
    (String.join chunks = "" →
      handleWebSocketClose parse chunks
        = Except.error { message := "Connection closed without receiving any message" })
    ∧ ("Connection closed without receiving any message" : String)
        ≠ "Failed to parse WebSocket message as JSON"
    ∧ (∀ v, parse (String.join chunks) = Except.ok v → String.join chunks ≠ "" →
        handleWebSocketClose parse chunks = Except.ok v)
    ∧ (∀ e, parse (String.join chunks) = Except.error e → String.join chunks ≠ "" →
        handleWebSocketClose parse chunks
          = Except.error { message := "Failed to parse WebSocket message as JSON",
                           cause := some e })
    ∧ (0 < resolveTimeout opts →
        (listenRun parse opts
            ((datas.map fun d => (0, ConnEvent.msg d)) ++ [(0, ConnEvent.close)])).settled
          = some (handleWebSocketClose parse datas)) := by
  refine ⟨?_, ?_, ?_, ?_, ?_⟩
  · intro h; simp [handleWebSocketClose, h]
  · decide
  · intro v hv hne; simp [handleWebSocketClose, hne, hv]
  · intro e he hne; simp [handleWebSocketClose, hne, he]
  · intro hpos
    have hnle : ¬ (resolveTimeout opts ≤ 0) := by omega
    unfold listenRun
    rw [List.foldl_append,
      listenSteps_msgs_chunks parse (resolveTimeout opts) _ {}
        (by
          intro p hp
          simp only [List.mem_map] at hp
          obtain ⟨d0, _, rfl⟩ := hp
          exact ⟨hpos, d0, rfl⟩)]
    simp [eventMsgs_map_msg, listenStep, hnle, listenOnEvent, listenSettle,
      listenFireTimer]

/-- C7 witness: the two fragments of the specification example, delivered in
order then a clean close, resolve with the decoded value of their
concatenation — each fragment alone is not valid JSON, only the joined
buffer is. -/
theorem C7_witness :
    (listenRun jsonParseEx none
        ((["\x7b\"a\":", "1\x7d"].map fun d => (0, ConnEvent.msg d))
          ++ [(0, ConnEvent.close)])).settled
      = some (Except.ok 1)
    ∧ jsonParseEx "\x7b\"a\":" = Except.error "SyntaxError: Unexpected token"
    ∧ jsonParseEx "1\x7d" = Except.error "SyntaxError: Unexpected token" := by
  refine ⟨?_, by decide, by decide⟩
  rw [(C7_listen_close_semantics jsonParseEx [] ["\x7b\"a\":", "1\x7d"]
    none).2.2.2.2 (by decide)]
  decide

/-- C8: the `listen` idle timeout defaults to 600000 ms; a `message` event
never touches the timer or the settlement (the timer is armed once and not
reset by fragments); `close` and `error` both clear the timer; a settled
promise stays settled with its first result (exactly one of resolve/reject
takes effect); and on a timeline that never closes or errors the promise is
rejected with the timeout error and the connection is forced closed. -/
theorem C8_listen_timeout_discipline {ε V : Type} (parse : String → Except ε V)
    (opts : Option Nat) (events : List (Nat × ConnEvent ε)) (s : ListenState ε V)
    (d : String) (e : ε) (x r : Except (WebSocketError ε) V) :
    resolveTimeout none = 600000
    ∧ (listenOnEvent parse s (ConnEvent.msg d)).settled = s.settled
    ∧ (listenOnEvent parse s (ConnEvent.msg d)).timerCleared = s.timerCleared
    ∧ (listenOnEvent parse s (ConnEvent.msg d)).timerFired = s.timerFired
    ∧ (listenOnEvent parse s ConnEvent.close).timerCleared = true
    ∧ (listenOnEvent parse s (ConnEvent.error e)).timerCleared = true
    ∧ (s.settled = some x → (listenSettle s r).settled = some x)
    ∧ ((∀ p ∈ events, ∃ d0, p.2 = ConnEvent.msg d0) →
        (listenRun parse opts events).settled
          = some (Except.error { message := timeoutMessage (resolveTimeout opts) })
        ∧ (listenRun parse opts events).forcedClose = true) := by
  refine ⟨rfl, ?_, ?_, ?_, ?_, ?_, ?_, ?_⟩
  · simp [listenOnEvent]
  · simp [listenOnEvent]
  · simp [listenOnEvent]
  · cases hset : s.settled <;> simp [listenOnEvent, listenSettle, hset]
  · cases hset : s.settled <;> simp [listenOnEvent, listenSettle, hset]
  · intro hx; simp [listenSettle, hx]
  · intro hmsg
    exact listenFireTimer_settles (resolveTimeout opts) _
      (listenSteps_msgs_inv parse (resolveTimeout opts) events {} hmsg
        (Or.inl (by simp)))

/-- C8 witness: two fragments, one even arriving after the deadline, never
reset the timer — the promise is rejected with the timeout error and the
connection is forced closed. -/
theorem C8_witness :
    (listenRun parseOk none
        [(0, ConnEvent.msg "log1"), (700000, ConnEvent.msg "log2")]).settled
      = some (Except.error { message := timeoutMessage 600000 })
    ∧ (listenRun parseOk none
        [(0, ConnEvent.msg "log1"), (700000, ConnEvent.msg "log2")]).forcedClose
      = true := by
  have h := (C8_listen_timeout_discipline parseOk none
      [(0, ConnEvent.msg "log1"), (700000, ConnEvent.msg "log2")] {} "" ""
      (Except.ok "") (Except.ok "")).2.2.2.2.2.2.2
  exact h (by
    intro p hp
    simp only [List.mem_cons, List.mem_singleton] at hp
    rcases hp with h1 | h1 | h1
    · exact ⟨"log1", by rw [h1]⟩
    · exact ⟨"log2", by rw [h1]⟩
    · cases h1)

end SwarmNode
